import Mathlib

/-!
Verification development for the data-portal upload/validation application
(`streamlit_app.py`).  The Python source is shallowly embedded: pandas
dataframes become lists of named columns of optional string cells, the
schema dataframe becomes a list of rows `(COLUMN_NAME, DATA_TYPE,
IS_NULLABLE)`, pandas parsing calls are modelled by executable parsers on
decimal and ISO-date literals, and the object-store handler becomes explicit
state passing with injectable I/O faults.  Exceptions are modelled with
`Option`: `none` is a raised exception at the corresponding call site.
-/

/-- Strips a single leading sign character, returning the sign (as `1` or
`-1`) and the remaining characters.  Models the sign handling of numeric
parsing in `pd.to_numeric`. -/
def stripSign : List Char → Int × List Char
  | [] => (1, [])
  | c :: rest =>
    if c = '-' then (-1, rest)
    else if c = '+' then (1, rest)
    else (1, c :: rest)

/-- Splits a character list at the first decimal point.  Returns `none` when
more than one decimal point occurs (not a numeric literal); otherwise the
integer-part and fraction-part characters. -/
def splitDot : List Char → Option (List Char × List Char)
  | [] => some ([], [])
  | c :: cs =>
    if c = '.' then
      if cs.contains '.' then none else some ([], cs)
    else (splitDot cs).map (fun p => (c :: p.1, p.2))

/-- Numeric value of a digit string, most significant digit first. -/
def digitsToNat (cs : List Char) : Nat :=
  cs.foldl (fun n c => n * 10 + (c.toNat - 48)) 0

/-- An exact decimal number `num / 10 ^ scale`, the value a numeric cell
parses to.  Kept unnormalized so that every operation is plain integer
arithmetic. -/
structure DecNum where
  num : Int
  scale : Nat
deriving DecidableEq

/-- The rational value of a parsed decimal. -/
def DecNum.toRat (v : DecNum) : ℚ :=
  (v.num : ℚ) / (10 : ℚ) ^ v.scale

/-- Truncation toward zero of the value, as performed by `numpy`
`astype(int)` on the parsed numeric column. -/
def DecNum.trunc (v : DecNum) : ℤ :=
  v.num.tdiv ((10 : ℤ) ^ v.scale)

/-- The value is equal to its own integer truncation (no fractional part),
stated on the exact representation: `num / 10 ^ scale = trunc` exactly. -/
def DecNum.eqTrunc (v : DecNum) : Prop :=
  v.num = v.trunc * (10 : ℤ) ^ v.scale

instance (v : DecNum) : Decidable v.eqTrunc := by
  unfold DecNum.eqTrunc; infer_instance

/-- Models `pd.to_numeric` on one cell value: an optional sign followed by
decimal digits with at most one decimal point parses to an exact decimal;
anything else raises (returns `none`).  Scientific notation and surrounding
whitespace are outside the modelled fragment. -/
def parseNumeric (s : String) : Option DecNum :=
  let p := stripSign s.data
  match splitDot p.2 with
  | none => none
  | some (ip, fp) =>
    if !(ip ++ fp).isEmpty && (ip ++ fp).all Char.isDigit then
      some ⟨p.1 * (digitsToNat ip * 10 ^ fp.length + digitsToNat fp), fp.length⟩
    else none

/-- Splits a character list on dashes. -/
def splitDash : List Char → List (List Char)
  | [] => [[]]
  | c :: cs =>
    if c = '-' then [] :: splitDash cs
    else
      match splitDash cs with
      | [] => [[c]]
      | g :: gs => (c :: g) :: gs

/-- Models `pd.to_datetime` on one cell value, restricted to ISO dates
`YYYY-MM-DD`: three dash-separated digit groups with the month in `1..12`
and the day in `1..31`.  Other accepted pandas formats are outside the
modelled fragment. -/
def parseDatetime (s : String) : Option (Nat × Nat × Nat) :=
  match splitDash s.data with
  | [y, m, d] =>
    if !y.isEmpty && y.all Char.isDigit && !m.isEmpty && m.all Char.isDigit &&
        !d.isEmpty && d.all Char.isDigit then
      let mv := digitsToNat m
      let dv := digitsToNat d
      if 1 ≤ mv ∧ mv ≤ 12 ∧ 1 ≤ dv ∧ dv ≤ 31 then some (digitsToNat y, mv, dv)
      else none
    else none
  | _ => none

/-- Models `pd.to_numeric` applied to a whole column: the call raises
(`none`) as soon as any cell fails to parse, and otherwise yields the parsed
column. -/
def parseAllNumeric : List String → Option (List DecNum)
  | [] => some []
  | s :: ss =>
    match parseNumeric s, parseAllNumeric ss with
    | some q, some qs => some (q :: qs)
    | _, _ => none

/-- A pandas dataframe loaded from CSV: named columns of cells, where a
`none` cell is a null (`NaN`) value — the way `pd.read_csv` represents
empty fields. -/
structure DataFrame where
  cols : List (String × List (Option String))
deriving DecidableEq

/-- `df.columns`. -/
def DataFrame.columns (df : DataFrame) : List String :=
  df.cols.map Prod.fst

/-- `df[n]`: the cells of column `n` (first match, as for unique pandas
column labels). -/
def DataFrame.getCol (df : DataFrame) (n : String) : List (Option String) :=
  (df.cols.lookup n).getD []

/-- One row of the schema dataframe produced by the
`INFORMATION_SCHEMA.COLUMNS` query. -/
structure SchemaRow where
  COLUMN_NAME : String
  DATA_TYPE : String
  IS_NULLABLE : String
deriving DecidableEq

/-- The per-column record built by `validate_schema_match` /
`check_file_schema_compatibility` from one schema row. -/
structure ColInfo where
  type : String
  nullable : Bool
deriving DecidableEq

/-- Whitespace test for Python `str.strip()` (space, tab, newline,
carriage return). -/
def isSpaceChar (c : Char) : Bool :=
  c.toNat == 32 || c.toNat == 9 || c.toNat == 10 || c.toNat == 13

/-- `str.strip()` on the character list. -/
def stripChars (cs : List Char) : List Char :=
  ((cs.dropWhile isSpaceChar).reverse.dropWhile isSpaceChar).reverse

/-- `str.upper()` on one ASCII character. -/
def upperChar (c : Char) : Char :=
  if 97 ≤ c.toNat ∧ c.toNat ≤ 122 then Char.ofNat (c.toNat - 32) else c

/-- Python `s.strip().upper()`. -/
def pyStripUpper (s : String) : String :=
  ⟨(stripChars s.data).map upperChar⟩

/-- `{"type": row["DATA_TYPE"], "nullable": row["IS_NULLABLE"].strip().upper() == "YES"}`. -/
def colInfoOf (r : SchemaRow) : ColInfo :=
  { type := r.DATA_TYPE, nullable := pyStripUpper r.IS_NULLABLE == "YES" }

/-- One `dict[k] = v` assignment on an association list with Python dict
semantics: an existing key keeps its position and gets the new value, a new
key is appended. -/
def insertSchemaCol (m : List (String × ColInfo)) (n : String) (v : ColInfo) :
    List (String × ColInfo) :=
  if m.any (fun p => p.1 == n) then
    m.map (fun p => if p.1 == n then (n, v) else p)
  else m ++ [(n, v)]

/-- The `schema_columns` dict comprehension: iterate the schema rows in
order, building a name-keyed insertion-ordered map. -/
def buildSchemaCols (rows : List SchemaRow) : List (String × ColInfo) :=
  rows.foldl (fun m r => insertSchemaCol m r.COLUMN_NAME (colInfoOf r)) []

/-- Message `f"Missing required column: {col_name}"`. -/
def missingMsg (n : String) : String :=
  "Missing required column: " ++ n

/-- Message for a parsed INTEGER column with fractional values. -/
def nonIntMsg (n : String) : String :=
  "Column \x27" ++ n ++ "\x27 contains non-integer values"

/-- Message of the `except` branch of the type check. -/
def invalidTypeMsg (n ty : String) : String :=
  "Column \x27" ++ n ++ "\x27 contains invalid " ++ ty ++ " values"

/-- Message of the nullability check. -/
def nullMsg (n : String) : String :=
  "Column \x27" ++ n ++ "\x27 contains null values which are not allowed"

/-- Message `f"Extra columns found: {', '.join(extra_cols)}"`.  Python
iterates a `set` here; the set is modelled as the dataframe columns outside
the schema in dataframe order. -/
def extraMsg (cols : List String) : String :=
  "Extra columns found: " ++ String.intercalate (", ") cols

/-- The `try`/`except` type-check block of `validate_schema_match` for one
column: `INTEGER` parses the non-null cells and compares them with their
integer truncation, `FLOAT` only parses, `DATETIME` parses as dates; a
parse failure is the caught exception and yields the single generic
invalid-type message. -/
def typeCheckIssues (n ty : String) (cells : List (Option String)) : List String :=
  let nonNull := cells.filterMap id
  if ty == "INTEGER" then
    match parseAllNumeric nonNull with
    | none => [invalidTypeMsg n ty]
    | some qs =>
      if qs.all (fun q => decide q.eqTrunc) then [] else [nonIntMsg n]
  else if ty == "FLOAT" then
    match parseAllNumeric nonNull with
    | none => [invalidTypeMsg n ty]
    | some _ => []
  else if ty == "DATETIME" then
    if nonNull.all (fun s => (parseDatetime s).isSome) then [] else [invalidTypeMsg n ty]
  else []

/-- The nullability check of `validate_schema_match` for one column. -/
def nullCheckIssues (n : String) (nullable : Bool) (cells : List (Option String)) : List String :=
  if !nullable && cells.any (fun c => c.isNone) then [nullMsg n] else []

/-- All issues contributed by one schema column in `validate_schema_match`:
the missing-column message, or the type-check issues followed by the
nullability issues. -/
def colIssues (df : DataFrame) (p : String × ColInfo) : List String :=
  if df.columns.contains p.1 then
    typeCheckIssues p.1 p.2.type (df.getCol p.1) ++
      nullCheckIssues p.1 p.2.nullable (df.getCol p.1)
  else [missingMsg p.1]

/-- `validate_schema_match(df, schema)`: accumulates issues per schema
column in schema iteration order (missing column / type check / null
check), then appends the batched extra-columns issue, and returns
`(len(issues) == 0, issues)`. -/
def validate_schema_match (df : DataFrame) (schema : List SchemaRow) :
    Bool × List String :=
  let sc := buildSchemaCols schema
  let issues := sc.foldl (fun acc p =>
    if df.columns.contains p.1 then
      acc ++ typeCheckIssues p.1 p.2.type (df.getCol p.1) ++
        nullCheckIssues p.1 p.2.nullable (df.getCol p.1)
    else acc ++ [missingMsg p.1]) []
  let extra := df.columns.filter (fun c => !((sc.map Prod.fst).contains c))
  let issues2 := if extra.isEmpty then issues else issues ++ [extraMsg extra]
  (issues2.length == 0, issues2)

/-- Message `f"Missing column: {col_name}"` of the compatibility check. -/
def compatMissingMsg (n : String) : String :=
  "Missing column: " ++ n

/-- Message of the bare `except` branch of the compatibility type check. -/
def compatTypeMsg (n : String) : String :=
  "Column \x27" ++ n ++ "\x27 has incompatible data type"

/-- The type check of `check_file_schema_compatibility` for one column:
`pd.to_numeric(col, downcast='integer')` and `pd.to_numeric(col,
downcast='float')` raise exactly when `pd.to_numeric(col)` does — the
downcast step never raises, it merely narrows the dtype when lossless — so
both numeric cases reduce to parse success. -/
def compatTypeIssues (n ty : String) (cells : List (Option String)) : List String :=
  let nonNull := cells.filterMap id
  if ty == "INTEGER" then
    match parseAllNumeric nonNull with
    | none => [compatTypeMsg n]
    | some _ => []
  else if ty == "FLOAT" then
    match parseAllNumeric nonNull with
    | none => [compatTypeMsg n]
    | some _ => []
  else if ty == "DATETIME" then
    if nonNull.all (fun s => (parseDatetime s).isSome) then [] else [compatTypeMsg n]
  else []

/-- All issues contributed by one schema column in
`check_file_schema_compatibility` (no nullability check). -/
def compatColIssues (df : DataFrame) (p : String × ColInfo) : List String :=
  if df.columns.contains p.1 then compatTypeIssues p.1 p.2.type (df.getCol p.1)
  else [compatMissingMsg p.1]

/-- `check_file_schema_compatibility(df, schema)`: like the validator but
with no nullability message and the looser numeric type check, same
accumulation policy. -/
def check_file_schema_compatibility (df : DataFrame) (schema : List SchemaRow) :
    Bool × List String :=
  let sc := buildSchemaCols schema
  let issues := sc.foldl (fun acc p =>
    if df.columns.contains p.1 then
      acc ++ compatTypeIssues p.1 p.2.type (df.getCol p.1)
    else acc ++ [compatMissingMsg p.1]) []
  let extra := df.columns.filter (fun c => !((sc.map Prod.fst).contains c))
  let issues2 := if extra.isEmpty then issues else issues ++ [extraMsg extra]
  (issues2.length == 0, issues2)

/-- Modelled from the spec: the per-cell typing rule — an INTEGER cell
parses as numeric and is equal to its own integer truncation, a FLOAT cell
parses as numeric, a DATETIME cell parses as a date, and any other type is
free text. -/
def specCellOk (ty : String) (s : String) : Prop :=
  if ty = "INTEGER" then ∃ v, parseNumeric s = some v ∧ v.eqTrunc
  else if ty = "FLOAT" then (parseNumeric s).isSome = true
  else if ty = "DATETIME" then (parseDatetime s).isSome = true
  else True

/-- Modelled from the spec: the dataset is valid for the schema — it has
exactly the schema's columns (no missing, no extra), every non-nullable
column has no null cells, and every non-null cell of a typed column parses
under that type's rule. -/
def specValid (df : DataFrame) (schema : List SchemaRow) : Prop :=
  (∀ p ∈ buildSchemaCols schema, p.1 ∈ df.columns) ∧
  (∀ c ∈ df.columns, c ∈ (buildSchemaCols schema).map Prod.fst) ∧
  (∀ p ∈ buildSchemaCols schema, p.2.nullable = false →
    ∀ cell ∈ df.getCol p.1, cell ≠ none) ∧
  (∀ p ∈ buildSchemaCols schema, ∀ s ∈ (df.getCol p.1).filterMap id, specCellOk p.2.type s)

/-- The type check of a column raises an exception: some non-null cell of a
numeric column fails numeric parsing, or some non-null cell of a DATETIME
column fails date parsing. -/
def typeParseFails (ty : String) (cells : List (Option String)) : Prop :=
  ((ty = "INTEGER" ∨ ty = "FLOAT") ∧ ∃ s ∈ cells.filterMap id, parseNumeric s = none) ∨
    (ty = "DATETIME" ∧ ∃ s ∈ cells.filterMap id, parseDatetime s = none)

/-- Fault injection for the object-store gateway: which paths make the
`LIST` / `GET` / `PUT` calls of the Snowpark file API raise. -/
structure S3Ops where
  listFails : String → Bool
  getFails : String → Bool
  putFails : String → Bool

/-- The state of the stage: stored files by path.  Contents are modelled at
the parsed-table level, since every stored object is a CSV serialization of
a dataframe. -/
structure S3State where
  files : List (String × DataFrame)
deriving DecidableEq

/-- The file stored at a path, if any. -/
def S3State.lookup (st : S3State) (p : String) : Option DataFrame :=
  List.lookup p st.files

/-- Storing a file at a path with `overwrite=True`. -/
def S3State.insert (st : S3State) (p : String) (d : DataFrame) : S3State :=
  ⟨(p, d) :: st.files.filter (fun q => q.1 != p)⟩

/-- `S3Handler.file_exists`: `LIST` the exact path; existence is a
non-empty result.  `none` is a raised exception of the `LIST` call, which
this method does not catch. -/
def file_exists (ops : S3Ops) (st : S3State) (p : String) : Option Bool :=
  if ops.listFails p then none else some (st.lookup p).isSome

/-- `S3Handler.get_file`: existence check, then a `GET` that materializes
the file.  The outer `none` is a raised exception; `some none` is the
`None` returned for a missing file. -/
def get_file (ops : S3Ops) (st : S3State) (p : String) : Option (Option DataFrame) :=
  if ops.listFails p then none
  else if (st.lookup p).isSome then
    if ops.getFails p then none else some (st.lookup p)
  else some none

/-- `S3Handler.upload_file`: a `PUT` with `overwrite=True`; exceptions
(`none`) propagate to the caller. -/
def upload_file (ops : S3Ops) (st : S3State) (file : DataFrame) (p : String) :
    Option S3State :=
  if ops.putFails p then none else some (st.insert p file)

/-- The `new_name.endswith(".csv")` test, modelled on the character list:
the last four characters are `.csv`. -/
def hasCsvExt (p : String) : Bool :=
  p.data.reverse.take 4 == [('v'), ('s'), ('c'), ('.')]

/-- `S3Handler.rename_file`: read the old file, re-serialize it under the
new path (CSV only), `PUT` it, never delete the old path.  The whole body
is wrapped in `try`/`except`, so every failure is reported as a message
(the returned flag) and never propagates; the state is unchanged on
failure. -/
def rename_file (ops : S3Ops) (st : S3State) (old new : String) : S3State × Bool :=
  match get_file ops st old with
  | none => (st, true)
  | some odf =>
    if hasCsvExt new then
      match odf with
      | none => (st, true)
      | some d => if ops.putFails new then (st, true) else (st.insert new d, false)
    else (st, true)

/-- The steps of the save sequence of `upload_page`, in the order the spec
names them. -/
inductive SaveStep where
  | checkExists
  | archiveRename
  | uploadNew
  | refreshTable
deriving DecidableEq

/-- Outcome of the first `try` block of the save sequence (steps 1–3). -/
structure UploadTryOutcome where
  store : S3State
  steps : List SaveStep
  renameErrorShown : Bool
  uploadFailedShown : Bool
  uploadedOk : Bool
deriving DecidableEq

/-- Outcome of the whole save sequence. -/
structure SaveOutcome where
  store : S3State
  steps : List SaveStep
  renameErrorShown : Bool
  uploadFailedShown : Bool
  uploadedOk : Bool
  refreshErrorShown : Bool
  refreshedOk : Bool
deriving DecidableEq

/-- `str.lower()` on one ASCII character. -/
def lowerChar (c : Char) : Char :=
  if 65 ≤ c.toNat ∧ c.toNat ≤ 90 then Char.ofNat (c.toNat + 32) else c

/-- Python `s.lower()`. -/
def pyLower (s : String) : String :=
  ⟨s.data.map lowerChar⟩

/-- `f"{schema_name.lower()}/{table_name.lower()}/{table_name.lower()}.csv"`. -/
def activePath (schemaName tableName : String) : String :=
  pyLower schemaName ++ "/" ++ pyLower tableName ++ "/" ++ pyLower tableName ++ ".csv"

/-- The archive path stamped with the formatted timestamp `ts`. -/
def backupPath (schemaName tableName ts : String) : String :=
  pyLower schemaName ++ "/" ++ pyLower tableName ++ "/archive/" ++
    pyLower tableName ++ "_" ++ ts ++ ".csv"

/-- The first `try` block of the save sequence: check existence of the
active path; if present, rename it to the backup path (whose internal
errors are swallowed by `rename_file`); upload the new content to the
active path.  An exception raised by `file_exists` or `upload_file` is
caught by the enclosing `except`, which shows the single `Upload failed`
message; `steps` records the steps that started executing. -/
def upload_try (ops : S3Ops) (st : S3State) (fp bp : String) (content : DataFrame) :
    UploadTryOutcome :=
  match file_exists ops st fp with
  | none =>
    { store := st, steps := [SaveStep.checkExists], renameErrorShown := false,
      uploadFailedShown := true, uploadedOk := false }
  | some true =>
    let r := rename_file ops st fp bp
    match upload_file ops r.1 content fp with
    | none =>
      { store := r.1, steps := [SaveStep.checkExists, SaveStep.archiveRename, SaveStep.uploadNew],
        renameErrorShown := r.2, uploadFailedShown := true, uploadedOk := false }
    | some st2 =>
      { store := st2, steps := [SaveStep.checkExists, SaveStep.archiveRename, SaveStep.uploadNew],
        renameErrorShown := r.2, uploadFailedShown := false, uploadedOk := true }
  | some false =>
    match upload_file ops st content fp with
    | none =>
      { store := st, steps := [SaveStep.checkExists, SaveStep.uploadNew],
        renameErrorShown := false, uploadFailedShown := true, uploadedOk := false }
    | some st2 =>
      { store := st2, steps := [SaveStep.checkExists, SaveStep.uploadNew],
        renameErrorShown := false, uploadFailedShown := false, uploadedOk := true }

/-- The save sequence of `upload_page` behind the `Upload File` button: the
first `try` block runs steps 1–3, and the second, independent `try` block
then runs the external-table refresh (step 4) unconditionally; a refresh
failure only shows a message and touches no file. -/
def upload_save (ops : S3Ops) (refreshFails : Bool) (st : S3State)
    (schemaName tableName ts : String) (content : DataFrame) : SaveOutcome :=
  let t := upload_try ops st (activePath schemaName tableName)
    (backupPath schemaName tableName ts) content
  { store := t.store
    steps := t.steps ++ [SaveStep.refreshTable]
    renameErrorShown := t.renameErrorShown
    uploadFailedShown := t.uploadFailedShown
    uploadedOk := t.uploadedOk
    refreshErrorShown := refreshFails
    refreshedOk := !refreshFails }

theorem DecNum.eqTrunc_iff_toRat (v : DecNum) : v.eqTrunc ↔ (v.trunc : ℚ) = v.toRat := by
  have h10 : ((10 : ℚ) ^ v.scale) ≠ 0 := by positivity
  unfold DecNum.eqTrunc DecNum.toRat
  rw [eq_div_iff h10]
  rw [show ((v.trunc : ℚ) * (10 : ℚ) ^ v.scale) = ((v.trunc * (10 : ℤ) ^ v.scale : ℤ) : ℚ) by
    push_cast; ring]
  rw [Int.cast_inj]
  exact eq_comm

theorem parseAllNumeric_isSome_iff (l : List String) :
    (parseAllNumeric l).isSome = true ↔ ∀ s ∈ l, (parseNumeric s).isSome = true := by
  induction l with
  | nil => simp [parseAllNumeric]
  | cons s ss ih =>
    simp only [parseAllNumeric]
    cases hs : parseNumeric s <;> cases hss : parseAllNumeric ss <;>
      simp_all

theorem parseAllNumeric_eq_none {l : List String} {s : String}
    (hs : s ∈ l) (h : parseNumeric s = none) : parseAllNumeric l = none := by
  cases hp : parseAllNumeric l with
  | none => rfl
  | some qs =>
    have := (parseAllNumeric_isSome_iff l).mp (by simp [hp]) s hs
    simp [h] at this

theorem intAllOk_iff (l : List String) :
    (match parseAllNumeric l with
     | none => false
     | some qs => qs.all (fun q => decide q.eqTrunc)) = true ↔
    ∀ s ∈ l, ∃ v, parseNumeric s = some v ∧ v.eqTrunc := by
  induction l with
  | nil => simp [parseAllNumeric]
  | cons s ss ih =>
    simp only [parseAllNumeric]
    cases hs : parseNumeric s with
    | none =>
      simp only [List.mem_cons]
      constructor
      · intro h; exact absurd h (by simp)
      · intro h
        rcases h s (Or.inl rfl) with ⟨v, hv, _⟩
        simp [hs] at hv
    | some v =>
      cases hss : parseAllNumeric ss with
      | none =>
        rw [hss] at ih
        simp only [List.mem_cons]
        constructor
        · intro h; exact absurd h (by simp)
        · intro h
          have hall : ∀ s ∈ ss, ∃ v, parseNumeric s = some v ∧ v.eqTrunc :=
            fun x hx => h x (Or.inr hx)
          have hfalse := ih.mpr hall
          simp at hfalse
      | some qs =>
        simp only [List.all_cons, Bool.and_eq_true, decide_eq_true_eq, List.mem_cons]
        rw [hss] at ih
        simp only at ih
        constructor
        · rintro ⟨h1, h2⟩ x hx
          rcases hx with rfl | hx
          · exact ⟨v, hs, h1⟩
          · exact ih.mp h2 x hx
        · intro h
          refine ⟨?_, ih.mpr fun x hx => h x (Or.inr hx)⟩
          rcases h s (Or.inl rfl) with ⟨w, hw, hw2⟩
          rw [hs] at hw
          cases hw
          exact hw2

theorem nullCheckIssues_eq_nil_iff (n : String) (nb : Bool) (cells : List (Option String)) :
    nullCheckIssues n nb cells = [] ↔ (nb = false → ∀ cell ∈ cells, cell ≠ none) := by
  unfold nullCheckIssues
  split
  · next h =>
    simp only [Bool.and_eq_true, Bool.not_eq_true', List.any_eq_true] at h
    obtain ⟨hnb, cell, hcell, hnone⟩ := h
    simp only [List.cons_ne_nil, false_iff]
    intro hc
    exact hc hnb cell hcell (Option.isNone_iff_eq_none.mp hnone)
  · next h =>
    simp only [true_iff]
    intro hnb cell hcell hnone
    apply h
    simp only [Bool.and_eq_true, Bool.not_eq_true']
    exact ⟨hnb, List.any_eq_true.mpr ⟨cell, hcell, by simp [hnone]⟩⟩


theorem typeCheckIssues_INTEGER (n : String) (cells : List (Option String)) :
    typeCheckIssues n ("INTEGER") cells =
      match parseAllNumeric (cells.filterMap id) with
      | none => [invalidTypeMsg n ("INTEGER")]
      | some qs => if qs.all (fun q => decide q.eqTrunc) then [] else [nonIntMsg n] := by
  simp [typeCheckIssues]

theorem typeCheckIssues_FLOAT (n : String) (cells : List (Option String)) :
    typeCheckIssues n ("FLOAT") cells =
      match parseAllNumeric (cells.filterMap id) with
      | none => [invalidTypeMsg n ("FLOAT")]
      | some _ => [] := by
  simp [typeCheckIssues]

theorem typeCheckIssues_DATETIME (n : String) (cells : List (Option String)) :
    typeCheckIssues n ("DATETIME") cells =
      if (cells.filterMap id).all (fun s => (parseDatetime s).isSome) then []
      else [invalidTypeMsg n ("DATETIME")] := by
  simp [typeCheckIssues]

theorem typeCheckIssues_other (n ty : String) (cells : List (Option String))
    (h1 : ty ≠ "INTEGER") (h2 : ty ≠ "FLOAT") (h3 : ty ≠ "DATETIME") :
    typeCheckIssues n ty cells = [] := by
  simp [typeCheckIssues, h1, h2, h3]

theorem specCellOk_INTEGER (s : String) :
    specCellOk ("INTEGER") s ↔ ∃ v, parseNumeric s = some v ∧ v.eqTrunc := by
  simp [specCellOk]

theorem specCellOk_FLOAT (s : String) :
    specCellOk ("FLOAT") s ↔ (parseNumeric s).isSome = true := by
  simp [specCellOk]

theorem specCellOk_DATETIME (s : String) :
    specCellOk ("DATETIME") s ↔ (parseDatetime s).isSome = true := by
  simp [specCellOk]

theorem specCellOk_other (ty s : String)
    (h1 : ty ≠ "INTEGER") (h2 : ty ≠ "FLOAT") (h3 : ty ≠ "DATETIME") :
    specCellOk ty s := by
  simp [specCellOk, h1, h2, h3]

theorem typeCheckIssues_eq_nil_iff (n ty : String) (cells : List (Option String)) :
    typeCheckIssues n ty cells = [] ↔ ∀ s ∈ cells.filterMap id, specCellOk ty s := by
  by_cases h1 : ty = "INTEGER"
  · subst h1
    rw [typeCheckIssues_INTEGER]
    have h := intAllOk_iff (cells.filterMap id)
    constructor
    · intro hnil s hs
      rw [specCellOk_INTEGER]
      refine h.mp ?_ s hs
      cases hp : parseAllNumeric (cells.filterMap id) with
      | none => rw [hp] at hnil; simp at hnil
      | some qs =>
        rw [hp] at hnil
        by_cases ha : qs.all (fun q => decide q.eqTrunc) = true
        · simpa using ha
        · simp [ha] at hnil
    · intro hall
      have hb : (match parseAllNumeric (cells.filterMap id) with
          | none => false
          | some qs => qs.all (fun q => decide q.eqTrunc)) = true :=
        h.mpr (fun s hs => (specCellOk_INTEGER s).mp (hall s hs))
      cases hp : parseAllNumeric (cells.filterMap id) with
      | none => rw [hp] at hb; simp at hb
      | some qs => rw [hp] at hb; simp only at hb; simp [hb]
  · by_cases h2 : ty = "FLOAT"
    · subst h2
      rw [typeCheckIssues_FLOAT]
      have h := parseAllNumeric_isSome_iff (cells.filterMap id)
      constructor
      · intro hnil s hs
        rw [specCellOk_FLOAT]
        refine h.mp ?_ s hs
        cases hp : parseAllNumeric (cells.filterMap id) with
        | none => rw [hp] at hnil; simp at hnil
        | some qs => simp [hp]
      · intro hall
        have hb := h.mpr (fun s hs => (specCellOk_FLOAT s).mp (hall s hs))
        cases hp : parseAllNumeric (cells.filterMap id) with
        | none => rw [hp] at hb; simp at hb
        | some qs => simp
    · by_cases h3 : ty = "DATETIME"
      · subst h3
        rw [typeCheckIssues_DATETIME]
        constructor
        · intro hnil s hs
          rw [specCellOk_DATETIME]
          by_cases hd : (cells.filterMap id).all (fun s => (parseDatetime s).isSome) = true
          · exact List.all_eq_true.mp hd s hs
          · simp [hd] at hnil
        · intro hall
          have hd : (cells.filterMap id).all (fun s => (parseDatetime s).isSome) = true :=
            List.all_eq_true.mpr (fun s hs => (specCellOk_DATETIME s).mp (hall s hs))
          simp [hd]
      · rw [typeCheckIssues_other n ty cells h1 h2 h3]
        simp only [true_iff]
        exact fun s _ => specCellOk_other ty s h1 h2 h3

theorem typeCheckIssues_of_fail (n ty : String) (cells : List (Option String))
    (h : typeParseFails ty cells) :
    typeCheckIssues n ty cells = [invalidTypeMsg n ty] := by
  rcases h with ⟨hty, s, hs, hfail⟩ | ⟨hty, s, hs, hfail⟩
  · have hnone : parseAllNumeric (cells.filterMap id) = none :=
      parseAllNumeric_eq_none hs hfail
    rcases hty with rfl | rfl
    · rw [typeCheckIssues_INTEGER, hnone]
    · rw [typeCheckIssues_FLOAT, hnone]
  · subst hty
    rw [typeCheckIssues_DATETIME, if_neg]
    simp only [List.all_eq_true, not_forall]
    exact ⟨s, by simp [hs, hfail]⟩

theorem colIssues_eq_nil_iff (df : DataFrame) (p : String × ColInfo) :
    colIssues df p = [] ↔
      (p.1 ∈ df.columns ∧
        (∀ s ∈ (df.getCol p.1).filterMap id, specCellOk p.2.type s) ∧
        (p.2.nullable = false → ∀ cell ∈ df.getCol p.1, cell ≠ none)) := by
  unfold colIssues
  by_cases hc : df.columns.contains p.1 = true
  · rw [if_pos hc, List.append_eq_nil, typeCheckIssues_eq_nil_iff,
      nullCheckIssues_eq_nil_iff]
    have hmem : p.1 ∈ df.columns := by simpa using hc
    simp [hmem]
  · rw [if_neg hc]
    have hmem : p.1 ∉ df.columns := by simpa using hc
    simp [hmem]

/-- The extra dataframe columns reported by both checkers. -/
def extraCols (df : DataFrame) (schema : List SchemaRow) : List String :=
  df.columns.filter (fun c => !(((buildSchemaCols schema).map Prod.fst).contains c))

/-- The trailing extra-columns issue, when any. -/
def extraPart (df : DataFrame) (schema : List SchemaRow) : List String :=
  if (extraCols df schema).isEmpty then [] else [extraMsg (extraCols df schema)]

theorem validate_foldl_eq (df : DataFrame) (l : List (String × ColInfo))
    (acc : List String) :
    l.foldl (fun acc p =>
      if df.columns.contains p.1 then
        acc ++ typeCheckIssues p.1 p.2.type (df.getCol p.1) ++
          nullCheckIssues p.1 p.2.nullable (df.getCol p.1)
      else acc ++ [missingMsg p.1]) acc = acc ++ (l.map (colIssues df)).flatten := by
  induction l generalizing acc with
  | nil => simp
  | cons p l ih =>
    simp only [List.foldl_cons, List.map_cons, List.flatten_cons]
    rw [ih]
    by_cases hc : p.1 ∈ df.columns
    · simp [colIssues, hc, List.append_assoc]
    · simp [colIssues, hc]

theorem validate_issues_eq (df : DataFrame) (schema : List SchemaRow) :
    (validate_schema_match df schema).2 =
      ((buildSchemaCols schema).map (colIssues df)).flatten ++ extraPart df schema := by
  unfold validate_schema_match extraPart extraCols
  dsimp only
  rw [validate_foldl_eq, List.nil_append]
  by_cases he : (df.columns.filter
      (fun c => !(((buildSchemaCols schema).map Prod.fst).contains c))).isEmpty = true
  · rw [if_pos he, if_pos he, List.append_nil]
  · rw [if_neg he, if_neg he]

theorem validate_fst_iff (df : DataFrame) (schema : List SchemaRow) :
    (validate_schema_match df schema).1 = true ↔ (validate_schema_match df schema).2 = [] := by
  unfold validate_schema_match
  simp [Nat.beq_eq_true_eq, List.length_eq_zero]

theorem validate_issues_nil_iff (df : DataFrame) (schema : List SchemaRow) :
    (validate_schema_match df schema).2 = [] ↔
      ((∀ p ∈ buildSchemaCols schema, colIssues df p = []) ∧ extraCols df schema = []) := by
  rw [validate_issues_eq, List.append_eq_nil, List.flatten_eq_nil_iff]
  constructor
  · rintro ⟨h1, h2⟩
    refine ⟨fun p hp => h1 _ (List.mem_map_of_mem _ hp), ?_⟩
    by_cases he : (extraCols df schema).isEmpty = true
    · exact List.isEmpty_iff.mp he
    · unfold extraPart at h2
      simp [he] at h2
  · rintro ⟨h1, h2⟩
    constructor
    · intro l hl
      rcases List.mem_map.mp hl with ⟨p, hp, rfl⟩
      exact h1 p hp
    · unfold extraPart
      simp [h2]

theorem extraCols_eq_nil_iff (df : DataFrame) (schema : List SchemaRow) :
    extraCols df schema = [] ↔
      ∀ c ∈ df.columns, c ∈ (buildSchemaCols schema).map Prod.fst := by
  unfold extraCols
  rw [List.filter_eq_nil_iff]
  simp

theorem validate_valid_iff_spec (df : DataFrame) (schema : List SchemaRow) :
    (validate_schema_match df schema).1 = true ↔ specValid df schema := by
  rw [validate_fst_iff, validate_issues_nil_iff]
  unfold specValid
  constructor
  · rintro ⟨h1, h2⟩
    have hcol := fun p hp => (colIssues_eq_nil_iff df p).mp (h1 p hp)
    exact ⟨fun p hp => (hcol p hp).1, (extraCols_eq_nil_iff df schema).mp h2,
      fun p hp => (hcol p hp).2.2, fun p hp => (hcol p hp).2.1⟩
  · rintro ⟨ha, hb, hc, hd⟩
    exact ⟨fun p hp => (colIssues_eq_nil_iff df p).mpr ⟨ha p hp, hd p hp, hc p hp⟩,
      (extraCols_eq_nil_iff df schema).mpr hb⟩

theorem mem_validate_issues (df : DataFrame) (schema : List SchemaRow)
    {p : String × ColInfo} {x : String} (hp : p ∈ buildSchemaCols schema)
    (hx : x ∈ colIssues df p) : x ∈ (validate_schema_match df schema).2 := by
  rw [validate_issues_eq]
  exact List.mem_append_left _ (List.mem_flatten.mpr ⟨colIssues df p,
    List.mem_map_of_mem _ hp, hx⟩)

theorem compatTypeIssues_INTEGER (n : String) (cells : List (Option String)) :
    compatTypeIssues n ("INTEGER") cells =
      match parseAllNumeric (cells.filterMap id) with
      | none => [compatTypeMsg n]
      | some _ => [] := by
  simp [compatTypeIssues]

theorem compatTypeIssues_FLOAT (n : String) (cells : List (Option String)) :
    compatTypeIssues n ("FLOAT") cells =
      match parseAllNumeric (cells.filterMap id) with
      | none => [compatTypeMsg n]
      | some _ => [] := by
  simp [compatTypeIssues]

theorem compatTypeIssues_DATETIME (n : String) (cells : List (Option String)) :
    compatTypeIssues n ("DATETIME") cells =
      if (cells.filterMap id).all (fun s => (parseDatetime s).isSome) then []
      else [compatTypeMsg n] := by
  simp [compatTypeIssues]

theorem compatTypeIssues_other (n ty : String) (cells : List (Option String))
    (h1 : ty ≠ "INTEGER") (h2 : ty ≠ "FLOAT") (h3 : ty ≠ "DATETIME") :
    compatTypeIssues n ty cells = [] := by
  simp [compatTypeIssues, h1, h2, h3]

theorem compat_foldl_eq (df : DataFrame) (l : List (String × ColInfo))
    (acc : List String) :
    l.foldl (fun acc p =>
      if df.columns.contains p.1 then
        acc ++ compatTypeIssues p.1 p.2.type (df.getCol p.1)
      else acc ++ [compatMissingMsg p.1]) acc =
      acc ++ (l.map (compatColIssues df)).flatten := by
  induction l generalizing acc with
  | nil => simp
  | cons p l ih =>
    simp only [List.foldl_cons, List.map_cons, List.flatten_cons]
    rw [ih]
    by_cases hc : p.1 ∈ df.columns
    · simp [compatColIssues, hc, List.append_assoc]
    · simp [compatColIssues, hc]

theorem compat_issues_eq (df : DataFrame) (schema : List SchemaRow) :
    (check_file_schema_compatibility df schema).2 =
      ((buildSchemaCols schema).map (compatColIssues df)).flatten ++ extraPart df schema := by
  unfold check_file_schema_compatibility extraPart extraCols
  dsimp only
  rw [compat_foldl_eq, List.nil_append]
  by_cases he : (df.columns.filter
      (fun c => !(((buildSchemaCols schema).map Prod.fst).contains c))).isEmpty = true
  · rw [if_pos he, if_pos he, List.append_nil]
  · rw [if_neg he, if_neg he]

theorem compat_fst_iff (df : DataFrame) (schema : List SchemaRow) :
    (check_file_schema_compatibility df schema).1 = true ↔
      (check_file_schema_compatibility df schema).2 = [] := by
  unfold check_file_schema_compatibility
  simp [Nat.beq_eq_true_eq, List.length_eq_zero]

theorem compat_issues_nil_iff (df : DataFrame) (schema : List SchemaRow) :
    (check_file_schema_compatibility df schema).2 = [] ↔
      ((∀ p ∈ buildSchemaCols schema, compatColIssues df p = []) ∧
        extraCols df schema = []) := by
  rw [compat_issues_eq, List.append_eq_nil, List.flatten_eq_nil_iff]
  constructor
  · rintro ⟨h1, h2⟩
    refine ⟨fun p hp => h1 _ (List.mem_map_of_mem _ hp), ?_⟩
    by_cases he : (extraCols df schema).isEmpty = true
    · exact List.isEmpty_iff.mp he
    · unfold extraPart at h2
      simp [he] at h2
  · rintro ⟨h1, h2⟩
    constructor
    · intro l hl
      rcases List.mem_map.mp hl with ⟨p, hp, rfl⟩
      exact h1 p hp
    · unfold extraPart
      simp [h2]

theorem compatTypeIssues_eq_nil_of_spec (n ty : String) (cells : List (Option String))
    (h : ∀ s ∈ cells.filterMap id, specCellOk ty s) :
    compatTypeIssues n ty cells = [] := by
  by_cases h1 : ty = "INTEGER"
  · subst h1
    rw [compatTypeIssues_INTEGER]
    have hsome : (parseAllNumeric (cells.filterMap id)).isSome = true := by
      rw [parseAllNumeric_isSome_iff]
      intro s hs
      rcases (specCellOk_INTEGER s).mp (h s hs) with ⟨v, hv, _⟩
      simp [hv]
    cases hp : parseAllNumeric (cells.filterMap id) with
    | none => rw [hp] at hsome; simp at hsome
    | some qs => simp
  · by_cases h2 : ty = "FLOAT"
    · subst h2
      rw [compatTypeIssues_FLOAT]
      have hsome : (parseAllNumeric (cells.filterMap id)).isSome = true := by
        rw [parseAllNumeric_isSome_iff]
        exact fun s hs => (specCellOk_FLOAT s).mp (h s hs)
      cases hp : parseAllNumeric (cells.filterMap id) with
      | none => rw [hp] at hsome; simp at hsome
      | some qs => simp
    · by_cases h3 : ty = "DATETIME"
      · subst h3
        rw [compatTypeIssues_DATETIME, if_pos]
        exact List.all_eq_true.mpr (fun s hs => (specCellOk_DATETIME s).mp (h s hs))
      · exact compatTypeIssues_other n ty cells h1 h2 h3

theorem S3State.lookup_insert_self (st : S3State) (p : String) (d : DataFrame) :
    (st.insert p d).lookup p = some d := by
  unfold S3State.insert S3State.lookup
  rw [List.lookup_cons]
  simp

theorem list_lookup_filter_ne {β : Type} (l : List (String × β)) (q p : String)
    (h : q ≠ p) :
    List.lookup q (l.filter (fun x => x.1 != p)) = List.lookup q l := by
  induction l with
  | nil => rfl
  | cons a l ih =>
    by_cases ha : a.1 = p
    · have hf : (a.1 != p) = false := by simp [ha]
      have hq : (q == a.1) = false := by simp [ha, h]
      rw [List.filter_cons, hf]
      simp only [Bool.false_eq_true, if_false]
      rw [ih]
      cases a with
      | mk k v =>
        rw [List.lookup_cons]
        simp only at hq
        rw [hq]
    · have hf : (a.1 != p) = true := by simp [ha]
      rw [List.filter_cons, hf]
      simp only [if_true]
      cases a with
      | mk k v =>
        by_cases hq : q = k
        · subst hq
          rw [List.lookup_cons, List.lookup_cons]
          simp
        · rw [List.lookup_cons, List.lookup_cons]
          rw [show (q == k) = false by simp [hq]]
          exact ih

theorem S3State.lookup_insert_ne (st : S3State) (p q : String) (d : DataFrame)
    (h : q ≠ p) :
    (st.insert p d).lookup q = st.lookup q := by
  unfold S3State.insert S3State.lookup
  rw [List.lookup_cons]
  rw [show (q == p) = false by simp [h]]
  exact list_lookup_filter_ne st.files q p h

theorem hasCsvExt_append (s : String) : hasCsvExt (s ++ (".csv")) = true := by
  unfold hasCsvExt
  rw [String.data_append, List.reverse_append]
  rw [show ((".csv" : String).data.reverse) = [('v'), ('s'), ('c'), ('.')] from rfl]
  rw [show (4 : Nat) = [('v'), ('s'), ('c'), ('.')].length from rfl, List.take_left]
  simp

theorem backupPath_ne_activePath (sn tn ts : String) :
    backupPath sn tn ts ≠ activePath sn tn := by
  intro h
  have hlen := congrArg String.length h
  have h1 : ("/" : String).length = 1 := rfl
  have h2 : ("/archive/" : String).length = 9 := rfl
  have h3 : ("_" : String).length = 1 := rfl
  have h4 : (".csv" : String).length = 4 := rfl
  simp only [backupPath, activePath, String.length_append, h1, h2, h3, h4] at hlen
  omega

theorem buildSchemaCols_aux (rows : List SchemaRow) (acc : List (String × ColInfo))
    (hnd : (rows.map SchemaRow.COLUMN_NAME).Nodup)
    (hacc : ∀ r ∈ rows, ∀ p ∈ acc, p.1 ≠ r.COLUMN_NAME) :
    rows.foldl (fun m r => insertSchemaCol m r.COLUMN_NAME (colInfoOf r)) acc =
      acc ++ rows.map (fun r => (r.COLUMN_NAME, colInfoOf r)) := by
  induction rows generalizing acc with
  | nil => simp
  | cons r rows ih =>
    simp only [List.foldl_cons, List.map_cons]
    have hins : insertSchemaCol acc r.COLUMN_NAME (colInfoOf r) =
        acc ++ [(r.COLUMN_NAME, colInfoOf r)] := by
      unfold insertSchemaCol
      rw [if_neg]
      intro hany
      rcases List.any_eq_true.mp hany with ⟨p, hp, hpe⟩
      exact hacc r (List.mem_cons_self r rows) p hp (by simpa using hpe)
    have hnd' : r.COLUMN_NAME ∉ List.map SchemaRow.COLUMN_NAME rows ∧
        (List.map SchemaRow.COLUMN_NAME rows).Nodup := by
      rw [List.map_cons, List.nodup_cons] at hnd
      exact hnd
    rw [hins, ih (acc ++ [(r.COLUMN_NAME, colInfoOf r)])]
    · rw [List.append_assoc]
      rfl
    · exact hnd'.2
    · intro r' hr' p hp
      rcases List.mem_append.mp hp with hpa | hpr
      · exact hacc r' (List.mem_cons_of_mem r hr') p hpa
      · have hpe : p = (r.COLUMN_NAME, colInfoOf r) := by simpa using hpr
        subst hpe
        intro hcontra
        apply hnd'.1
        simp only at hcontra
        rw [hcontra]
        exact List.mem_map_of_mem _ hr'

theorem buildSchemaCols_of_nodup (rows : List SchemaRow)
    (h : (rows.map SchemaRow.COLUMN_NAME).Nodup) :
    buildSchemaCols rows = rows.map (fun r => (r.COLUMN_NAME, colInfoOf r)) := by
  unfold buildSchemaCols
  rw [buildSchemaCols_aux rows [] h (by simp)]
  simp

theorem buildSchemaCols_singleton (r : SchemaRow) :
    buildSchemaCols [r] = [(r.COLUMN_NAME, colInfoOf r)] := by
  unfold buildSchemaCols insertSchemaCol
  simp

theorem getCol_singleton (n : String) (cells : List (Option String)) :
    DataFrame.getCol ⟨[(n, cells)]⟩ n = cells := by
  unfold DataFrame.getCol
  rw [List.lookup_cons]
  simp

theorem string_getLast_append (a b : String) (hb : b.data ≠ []) :
    (a ++ b).data.getLast? = b.data.getLast? := by
  rw [String.data_append]
  exact List.getLast?_append_of_ne_nil _ hb

theorem invalidTypeMsg_getLast (n ty : String) :
    (invalidTypeMsg n ty).data.getLast? = some ('s') := by
  unfold invalidTypeMsg
  rw [string_getLast_append _ _ (by decide)]
  rfl

theorem nullMsg_getLast (n : String) :
    (nullMsg n).data.getLast? = some ('d') := by
  unfold nullMsg
  rw [string_getLast_append _ _ (by decide)]
  rfl

theorem invalidTypeMsg_ne_nullMsg (n ty n2 : String) :
    invalidTypeMsg n ty ≠ nullMsg n2 := by
  intro h
  have hl := congrArg (fun s => s.data.getLast?) h
  simp only [invalidTypeMsg_getLast, nullMsg_getLast] at hl
  exact absurd hl (by decide)

instance (s : String) (P : DecNum → Prop) [DecidablePred P] :
    Decidable (∃ v, parseNumeric s = some v ∧ P v) :=
  match parseNumeric s with
  | none => isFalse (fun ⟨_, hv, _⟩ => by cases hv)
  | some v =>
    if hp : P v then isTrue ⟨v, rfl, hp⟩
    else isFalse (fun ⟨w, hw, hpw⟩ => by
      cases hw
      exact hp hpw)

instance (ty s : String) : Decidable (specCellOk ty s) := by
  unfold specCellOk
  infer_instance

/-- Fault-free gateway. -/
def noFailOps : S3Ops :=
  ⟨fun _ => false, fun _ => false, fun _ => false⟩

/-- A file already stored at the active path. -/
def dfOldEx : DataFrame := ⟨[(("id"), [some ("1")])]⟩

/-- A new upload. -/
def dfNewEx : DataFrame := ⟨[(("id"), [some ("2")])]⟩

/-- A stage holding one active file for table `T` of schema `PUBLIC`. -/
def stEx : S3State := ⟨[(("public/t/t.csv"), dfOldEx)]⟩

/-- Gateway whose `PUT` to the active path raises (step 3 fails). -/
def failUploadOps : S3Ops :=
  ⟨fun _ => false, fun _ => false, fun p => p == ("public/t/t.csv")⟩

/-- Gateway whose `PUT` to the archive path raises (the rename inside step 2
fails). -/
def failBackupOps : S3Ops :=
  ⟨fun _ => false, fun _ => false,
    fun p => p == ("public/t/archive/t_20250101_000000.csv")⟩

/-- Gateway whose `LIST` of the active path raises (step 1 fails). -/
def failListOps : S3Ops :=
  ⟨fun p => p == ("public/t/t.csv"), fun _ => false, fun _ => false⟩

/-- Claim C1: `validate_schema_match(D, S)` returns `is_valid = true` iff `D`
has exactly the columns of `S`, every non-nullable column has no null cells,
and every non-null cell of a typed column parses under that type's rule; and
`is_valid` equals "`issues` is empty". -/
theorem C1_validate_iff_spec (df : DataFrame) (schema : List SchemaRow) :
    ((validate_schema_match df schema).1 = true ↔ specValid df schema) ∧
    ((validate_schema_match df schema).1 = true ↔
      (validate_schema_match df schema).2 = []) :=
  ⟨validate_valid_iff_spec df schema, validate_fst_iff df schema⟩

/-- Claim C4: if `validate_schema_match` accepts a dataset then
`check_file_schema_compatibility` accepts it too (the compatibility check is
looser: no nullability message, numeric check by parse success only). -/
theorem C4_validate_implies_compat (df : DataFrame) (schema : List SchemaRow)
    (h : (validate_schema_match df schema).1 = true) :
    (check_file_schema_compatibility df schema).1 = true := by
  obtain ⟨h1, h2, h3, h4⟩ := (validate_valid_iff_spec df schema).mp h
  rw [compat_fst_iff, compat_issues_nil_iff]
  refine ⟨fun p hp => ?_, (extraCols_eq_nil_iff df schema).mpr h2⟩
  unfold compatColIssues
  rw [if_pos (by simpa using h1 p hp)]
  exact compatTypeIssues_eq_nil_of_spec _ _ _ (h4 p hp)

/-- Witness for C4 at a concrete dataset accepted by the validator. -/
theorem C4_witness :
    (validate_schema_match ⟨[(("id"), [some ("1")])]⟩
        [⟨("id"), ("INTEGER"), ("YES")⟩]).1 = true ∧
    (check_file_schema_compatibility ⟨[(("id"), [some ("1")])]⟩
        [⟨("id"), ("INTEGER"), ("YES")⟩]).1 = true :=
  ⟨by decide, C4_validate_implies_compat _ _ (by decide)⟩

/-- Claim C5: for an INTEGER schema column the validator accepts a column
whose values all parse and equal their own integer truncation, and rejects
any column containing a parsed value with a fractional part. -/
theorem C5_integer_rule (n : String) (cells : List (Option String)) :
    ((∀ s ∈ cells.filterMap id, ∃ v, parseNumeric s = some v ∧ v.eqTrunc) →
      (validate_schema_match ⟨[(n, cells)]⟩ [⟨n, ("INTEGER"), ("YES")⟩]).1 = true) ∧
    ((∃ s ∈ cells.filterMap id, ∃ v, parseNumeric s = some v ∧ ¬v.eqTrunc) →
      (validate_schema_match ⟨[(n, cells)]⟩ [⟨n, ("INTEGER"), ("YES")⟩]).1 = false) := by
  have hb : buildSchemaCols [⟨n, ("INTEGER"), ("YES")⟩] =
      [(n, ColInfo.mk ("INTEGER") true)] := by
    rw [buildSchemaCols_singleton]
    unfold colInfoOf
    rw [show (pyStripUpper ("YES") == ("YES")) = true from rfl]
  constructor
  · intro h
    rw [validate_valid_iff_spec]
    unfold specValid
    rw [hb]
    refine ⟨?_, ?_, ?_, ?_⟩
    · intro p hp
      rw [List.mem_singleton.mp hp]
      simp [DataFrame.columns]
    · intro c hc
      simp only [DataFrame.columns, List.map_cons, List.map_nil] at hc ⊢
      simpa using hc
    · intro p hp hnul
      rw [List.mem_singleton.mp hp] at hnul
      cases hnul
    · intro p hp s hs
      rw [List.mem_singleton.mp hp] at hs ⊢
      dsimp only at hs ⊢
      rw [getCol_singleton] at hs
      exact (specCellOk_INTEGER s).mpr (h s hs)
  · intro h
    rcases h with ⟨s, hs, v, hv, hnt⟩
    have hnot : ¬((validate_schema_match ⟨[(n, cells)]⟩
        [⟨n, ("INTEGER"), ("YES")⟩]).1 = true) := by
      intro htrue
      obtain ⟨_, _, _, h4⟩ := (validate_valid_iff_spec _ _).mp htrue
      have hcell := h4 (n, ColInfo.mk ("INTEGER") true) (by rw [hb]; simp)
      dsimp only at hcell
      rw [getCol_singleton] at hcell
      rcases (specCellOk_INTEGER s).mp (hcell s hs) with ⟨w, hw, hwt⟩
      rw [hv] at hw
      cases hw
      exact hnt hwt
    simpa using hnot

/-- Witness for C5: `"3"` and `"3.0"` are accepted, `"3.5"` is rejected. -/
theorem C5_witness :
    (validate_schema_match ⟨[(("id"), [some ("3"), some ("3.0")])]⟩
        [⟨("id"), ("INTEGER"), ("YES")⟩]).1 = true ∧
    (validate_schema_match ⟨[(("id"), [some ("3.5")])]⟩
        [⟨("id"), ("INTEGER"), ("YES")⟩]).1 = false :=
  ⟨(C5_integer_rule ("id") [some ("3"), some ("3.0")]).1 (by decide),
    (C5_integer_rule ("id") [some ("3.5")]).2 (by decide)⟩

/-- Claim C9: the compatibility type check treats INTEGER exactly like FLOAT
(the downcast never raises), so a column of fractional numerals passes the
INTEGER compatibility check whenever it parses as numeric. -/
theorem C9_integer_float_same (n : String) (cells : List (Option String)) :
    (compatTypeIssues n ("INTEGER") cells = compatTypeIssues n ("FLOAT") cells) ∧
    ((∀ s ∈ cells.filterMap id, (parseNumeric s).isSome = true) →
      (check_file_schema_compatibility ⟨[(n, cells)]⟩
        [⟨n, ("INTEGER"), ("YES")⟩]).1 = true) := by
  constructor
  · rw [compatTypeIssues_INTEGER, compatTypeIssues_FLOAT]
  · intro h
    have hb : buildSchemaCols [⟨n, ("INTEGER"), ("YES")⟩] =
        [(n, ColInfo.mk ("INTEGER") true)] := by
      rw [buildSchemaCols_singleton]
      unfold colInfoOf
      rw [show (pyStripUpper ("YES") == ("YES")) = true from rfl]
    rw [compat_fst_iff, compat_issues_nil_iff, hb]
    constructor
    · intro p hp
      rw [List.mem_singleton.mp hp]
      unfold compatColIssues
      rw [if_pos (by simp [DataFrame.columns])]
      dsimp only
      rw [getCol_singleton, compatTypeIssues_INTEGER]
      have hsome : (parseAllNumeric (cells.filterMap id)).isSome = true :=
        (parseAllNumeric_isSome_iff _).mpr h
      cases hp2 : parseAllNumeric (cells.filterMap id) with
      | none => rw [hp2] at hsome; simp at hsome
      | some qs => simp
    · rw [extraCols_eq_nil_iff, hb]
      intro c hc
      simpa [DataFrame.columns] using hc

/-- Witness for C9: a column holding `"3.5"` passes the INTEGER
compatibility check. -/
theorem C9_witness :
    (check_file_schema_compatibility ⟨[(("id"), [some ("3.5")])]⟩
        [⟨("id"), ("INTEGER"), ("YES")⟩]).1 = true :=
  (C9_integer_float_same ("id") [some ("3.5")]).2 (by decide)

/-- Claim C7: the issues list is the per-column issues in schema iteration
order followed by the batched extra-columns issue; a missing schema column
and extra dataset columns are reported simultaneously. -/
theorem C7_issue_order (df : DataFrame) (rows : List SchemaRow) :
    ((validate_schema_match df rows).2 =
      ((buildSchemaCols rows).map (colIssues df)).flatten ++ extraPart df rows) ∧
    (∀ p ∈ buildSchemaCols rows, p.1 ∉ df.columns → extraCols df rows ≠ [] →
      missingMsg p.1 ∈ (validate_schema_match df rows).2 ∧
      extraMsg (extraCols df rows) ∈ (validate_schema_match df rows).2) := by
  refine ⟨validate_issues_eq df rows, fun p hp hmiss hext => ⟨?_, ?_⟩⟩
  · apply mem_validate_issues df rows hp
    unfold colIssues
    rw [if_neg (by simpa using hmiss)]
    simp
  · rw [validate_issues_eq]
    apply List.mem_append_right
    unfold extraPart
    rw [if_neg (by simpa [List.isEmpty_iff] using hext)]
    simp

/-- Witness for C7 on a dataset with a missing and an extra column. -/
theorem C7_witness :
    missingMsg ("id") ∈ (validate_schema_match ⟨[(("x"), [some ("1")])]⟩
      [⟨("id"), ("INTEGER"), ("YES")⟩]).2 ∧
    extraMsg (extraCols ⟨[(("x"), [some ("1")])]⟩ [⟨("id"), ("INTEGER"), ("YES")⟩]) ∈
      (validate_schema_match ⟨[(("x"), [some ("1")])]⟩
        [⟨("id"), ("INTEGER"), ("YES")⟩]).2 :=
  (C7_issue_order ⟨[(("x"), [some ("1")])]⟩ [⟨("id"), ("INTEGER"), ("YES")⟩]).2
    ((("id"), ColInfo.mk ("INTEGER") true)) (by decide) (by decide) (by decide)

/-- Claim C8: the nullability check still runs when the type check raised
for that column — a non-nullable column with unparseable values and nulls
contributes both the invalid-type issue and the null-values issue. -/
theorem C8_null_after_type_failure (df : DataFrame) (rows : List SchemaRow)
    (n ty : String)
    (hmem : (n, ColInfo.mk ty false) ∈ buildSchemaCols rows)
    (hcol : n ∈ df.columns)
    (hfail : typeParseFails ty (df.getCol n))
    (hnull : ∃ cell ∈ df.getCol n, cell = none) :
    invalidTypeMsg n ty ∈ (validate_schema_match df rows).2 ∧
    nullMsg n ∈ (validate_schema_match df rows).2 := by
  have hci : colIssues df (n, ColInfo.mk ty false) =
      invalidTypeMsg n ty :: nullCheckIssues n false (df.getCol n) := by
    unfold colIssues
    rw [if_pos (by simpa using hcol)]
    dsimp only
    rw [typeCheckIssues_of_fail n ty _ hfail]
    rfl
  have hni : nullCheckIssues n false (df.getCol n) = [nullMsg n] := by
    unfold nullCheckIssues
    rw [if_pos]
    rcases hnull with ⟨cell, hc, hcn⟩
    simp only [Bool.not_false, Bool.true_and]
    exact List.any_eq_true.mpr ⟨cell, hc, by simp [hcn]⟩
  constructor
  · exact mem_validate_issues df rows hmem (by rw [hci]; exact List.mem_cons_self _ _)
  · exact mem_validate_issues df rows hmem (by rw [hci, hni]; simp)

/-- Witness for C8: a non-nullable INTEGER column holding `"x"` and a null. -/
theorem C8_witness :
    invalidTypeMsg ("id") ("INTEGER") ∈
      (validate_schema_match ⟨[(("id"), [some ("x"), none])]⟩
        [⟨("id"), ("INTEGER"), ("NO")⟩]).2 ∧
    nullMsg ("id") ∈
      (validate_schema_match ⟨[(("id"), [some ("x"), none])]⟩
        [⟨("id"), ("INTEGER"), ("NO")⟩]).2 :=
  C8_null_after_type_failure ⟨[(("id"), [some ("x"), none])]⟩
    [⟨("id"), ("INTEGER"), ("NO")⟩] ("id") ("INTEGER")
    (by decide) (by decide)
    (Or.inl ⟨Or.inl rfl, ("x"), by decide, by decide⟩)
    ⟨none, by decide, rfl⟩

/-- Claim C6: a parse failure in a column's type check yields exactly one
generic invalid-type issue for that column, the exception does not
propagate, and validation continues over the remaining columns and the
extra-columns check. -/
theorem C6_single_invalid_issue (df : DataFrame) (rows₁ rows₂ : List SchemaRow)
    (r : SchemaRow)
    (hnodup : ((rows₁ ++ r :: rows₂).map SchemaRow.COLUMN_NAME).Nodup)
    (hcol : r.COLUMN_NAME ∈ df.columns)
    (hfail : typeParseFails r.DATA_TYPE (df.getCol r.COLUMN_NAME)) :
    ((validate_schema_match df (rows₁ ++ r :: rows₂)).2 =
      (rows₁.map (fun x => colIssues df (x.COLUMN_NAME, colInfoOf x))).flatten ++
        invalidTypeMsg r.COLUMN_NAME r.DATA_TYPE ::
          (nullCheckIssues r.COLUMN_NAME (colInfoOf r).nullable (df.getCol r.COLUMN_NAME) ++
            ((rows₂.map (fun x => colIssues df (x.COLUMN_NAME, colInfoOf x))).flatten ++
              extraPart df (rows₁ ++ r :: rows₂)))) ∧
    (colIssues df (r.COLUMN_NAME, colInfoOf r)).count
      (invalidTypeMsg r.COLUMN_NAME r.DATA_TYPE) = 1 := by
  have hci : colIssues df (r.COLUMN_NAME, colInfoOf r) =
      invalidTypeMsg r.COLUMN_NAME r.DATA_TYPE ::
        nullCheckIssues r.COLUMN_NAME (colInfoOf r).nullable (df.getCol r.COLUMN_NAME) := by
    unfold colIssues
    rw [if_pos (by simpa using hcol)]
    dsimp only
    rw [show (colInfoOf r).type = r.DATA_TYPE from rfl]
    rw [typeCheckIssues_of_fail r.COLUMN_NAME r.DATA_TYPE _ hfail]
    rfl
  constructor
  · rw [validate_issues_eq, buildSchemaCols_of_nodup _ hnodup]
    simp only [List.map_append, List.map_cons, List.map_map, List.flatten_append,
      List.flatten_cons, Function.comp]
    rw [hci]
    simp [List.append_assoc, Function.comp_def]
  · rw [hci, List.count_cons]
    have hz : (nullCheckIssues r.COLUMN_NAME (colInfoOf r).nullable
        (df.getCol r.COLUMN_NAME)).count (invalidTypeMsg r.COLUMN_NAME r.DATA_TYPE) = 0 := by
      unfold nullCheckIssues
      split
      · rw [List.count_cons, List.count_nil]
        rw [show (nullMsg r.COLUMN_NAME == invalidTypeMsg r.COLUMN_NAME r.DATA_TYPE) = false
          from beq_eq_false_iff_ne.mpr (fun h => invalidTypeMsg_ne_nullMsg _ _ _ h.symm)]
        simp
      · simp
    rw [hz]
    simp

/-- Witness for C6 on a three-column schema whose middle column fails the
type check. -/
theorem C6_witness :
    ((validate_schema_match
        ⟨[(("a"), [some ("1")]), (("b"), [some ("x")]), (("c"), [some ("2")])]⟩
        ([⟨("a"), ("INTEGER"), ("YES")⟩] ++ ⟨("b"), ("INTEGER"), ("YES")⟩ ::
          [⟨("c"), ("INTEGER"), ("YES")⟩])).2 =
      ([⟨("a"), ("INTEGER"), ("YES")⟩].map (fun x =>
          colIssues ⟨[(("a"), [some ("1")]), (("b"), [some ("x")]), (("c"), [some ("2")])]⟩
            (x.COLUMN_NAME, colInfoOf x))).flatten ++
        invalidTypeMsg ("b") ("INTEGER") ::
          (nullCheckIssues ("b") (colInfoOf ⟨("b"), ("INTEGER"), ("YES")⟩).nullable
            (DataFrame.getCol
              ⟨[(("a"), [some ("1")]), (("b"), [some ("x")]), (("c"), [some ("2")])]⟩ ("b")) ++
            (([⟨("c"), ("INTEGER"), ("YES")⟩].map (fun x =>
                colIssues ⟨[(("a"), [some ("1")]), (("b"), [some ("x")]), (("c"), [some ("2")])]⟩
                  (x.COLUMN_NAME, colInfoOf x))).flatten ++
              extraPart ⟨[(("a"), [some ("1")]), (("b"), [some ("x")]), (("c"), [some ("2")])]⟩
                ([⟨("a"), ("INTEGER"), ("YES")⟩] ++ ⟨("b"), ("INTEGER"), ("YES")⟩ ::
                  [⟨("c"), ("INTEGER"), ("YES")⟩])))) ∧
    (colIssues ⟨[(("a"), [some ("1")]), (("b"), [some ("x")]), (("c"), [some ("2")])]⟩
        (("b"), colInfoOf ⟨("b"), ("INTEGER"), ("YES")⟩)).count
      (invalidTypeMsg ("b") ("INTEGER")) = 1 :=
  C6_single_invalid_issue
    ⟨[(("a"), [some ("1")]), (("b"), [some ("x")]), (("c"), [some ("2")])]⟩
    [⟨("a"), ("INTEGER"), ("YES")⟩] [⟨("c"), ("INTEGER"), ("YES")⟩]
    ⟨("b"), ("INTEGER"), ("YES")⟩
    (by decide) (by decide)
    (Or.inl ⟨Or.inl rfl, ("x"), by decide, by decide⟩)

theorem get_file_some_some (ops : S3Ops) (st : S3State) (p : String) (d : DataFrame)
    (h : get_file ops st p = some (some d)) : st.lookup p = some d := by
  unfold get_file at h
  by_cases h1 : ops.listFails p = true
  · rw [if_pos h1] at h; cases h
  · rw [if_neg h1] at h
    by_cases h2 : (st.lookup p).isSome = true
    · rw [if_pos h2] at h
      by_cases h3 : ops.getFails p = true
      · rw [if_pos h3] at h; cases h
      · rw [if_neg h3] at h
        exact Option.some_injective _ h
    · rw [if_neg h2] at h; cases h

theorem get_file_eq_some (ops : S3Ops) (st : S3State) (p : String) (d : DataFrame)
    (hl : ops.listFails p = false) (hg : ops.getFails p = false)
    (hd : st.lookup p = some d) :
    get_file ops st p = some (some d) := by
  unfold get_file
  rw [if_neg (by simp [hl]), hd]
  simp [hg]

/-- Claim C3: `rename_file` writes the old path's content to the new path
unchanged (at the parsed-table level the gateway operates at) and leaves the
object at the old path as-is — it is never deleted, in success and failure
branches alike. -/
theorem C3_rename_preserves (ops : S3Ops) (st : S3State) (old new : String) :
    ((rename_file ops st old new).1.lookup old = st.lookup old) ∧
    (∀ d, st.lookup old = some d → hasCsvExt new = true →
      ops.listFails old = false → ops.getFails old = false →
      ops.putFails new = false →
      (rename_file ops st old new).1.lookup new = some d) := by
  constructor
  · unfold rename_file
    cases hg : get_file ops st old with
    | none => rfl
    | some odf =>
      cases odf with
      | none =>
        dsimp only
        by_cases hcsv : hasCsvExt new = true
        · rw [if_pos hcsv]
        · rw [if_neg hcsv]
      | some d =>
        show (if hasCsvExt new = true then
            if ops.putFails new = true then (st, true) else (st.insert new d, false)
          else (st, true)).1.lookup old = st.lookup old
        by_cases hcsv : hasCsvExt new = true
        · rw [if_pos hcsv]
          by_cases hput : ops.putFails new = true
          · rw [if_pos hput]
          · rw [if_neg hput]
            dsimp only
            have hlook : st.lookup old = some d := get_file_some_some ops st old d hg
            by_cases he : old = new
            · subst he
              rw [S3State.lookup_insert_self, hlook]
            · exact S3State.lookup_insert_ne st new old d he
        · rw [if_neg hcsv]
  · intro d hd hcsv hl hg2 hp
    unfold rename_file
    rw [get_file_eq_some ops st old d hl hg2 hd]
    dsimp only
    rw [if_pos hcsv, if_neg (by simp [hp])]
    exact S3State.lookup_insert_self st new d

/-- Witness for C3: renaming the stored active file to an archive path. -/
theorem C3_witness :
    ((rename_file noFailOps stEx ("public/t/t.csv")
        ("public/t/archive/t_1.csv")).1.lookup ("public/t/t.csv") =
      stEx.lookup ("public/t/t.csv")) ∧
    ((rename_file noFailOps stEx ("public/t/t.csv")
        ("public/t/archive/t_1.csv")).1.lookup ("public/t/archive/t_1.csv") =
      some dfOldEx) :=
  ⟨(C3_rename_preserves noFailOps stEx ("public/t/t.csv") ("public/t/archive/t_1.csv")).1,
   (C3_rename_preserves noFailOps stEx ("public/t/t.csv") ("public/t/archive/t_1.csv")).2
     dfOldEx (by decide) (by decide) (by decide) (by decide) (by decide)⟩

/-- Counterexample to claim C2 as stated: with a gateway whose `PUT` to the
active path raises, step 3 fails (`Upload failed` is shown) and yet step 4
still executes and even reports success — later steps do run after an
error, because the refresh sits in a second, independent `try` block. -/
theorem C2_counterexample :
    (upload_save failUploadOps false stEx ("PUBLIC") ("T") ("20250101_000000")
      dfNewEx).uploadFailedShown = true ∧
    SaveStep.refreshTable ∈ (upload_save failUploadOps false stEx ("PUBLIC") ("T")
      ("20250101_000000") dfNewEx).steps ∧
    (upload_save failUploadOps false stEx ("PUBLIC") ("T") ("20250101_000000")
      dfNewEx).refreshedOk = true :=
  ⟨by decide, by decide, by decide⟩

/-- Claim C2 (amended): an error raised in step 1 or step 3 halts the
enclosing `try` block — the remaining steps of 1–3 do not run and the
stored files are untouched by the failed step — and step 4's failure rolls
nothing back; but step 4 executes unconditionally even when steps 1–3
failed, and a step-2 rename failure is caught inside the gateway, so it
does not halt step 3. -/
theorem C2_save_error_handling (ops : S3Ops) (rf : Bool) (st : S3State)
    (sn tn ts : String) (c : DataFrame) :
    (ops.listFails (activePath sn tn) = true →
      (upload_save ops rf st sn tn ts c).steps =
        [SaveStep.checkExists, SaveStep.refreshTable] ∧
      (upload_save ops rf st sn tn ts c).store = st ∧
      (upload_save ops rf st sn tn ts c).uploadFailedShown = true) ∧
    (ops.listFails (activePath sn tn) = false →
      (st.lookup (activePath sn tn)).isSome = true →
      SaveStep.uploadNew ∈ (upload_save ops rf st sn tn ts c).steps) ∧
    (SaveStep.refreshTable ∈ (upload_save ops rf st sn tn ts c).steps) ∧
    ((upload_save ops true st sn tn ts c).store =
      (upload_save ops false st sn tn ts c).store ∧
     (upload_save ops true st sn tn ts c).uploadedOk =
      (upload_save ops false st sn tn ts c).uploadedOk) := by
  refine ⟨?_, ?_, ?_, rfl, rfl⟩
  · intro h
    have hfe : file_exists ops st (activePath sn tn) = none := by
      unfold file_exists
      rw [if_pos h]
    unfold upload_save upload_try
    rw [hfe]
    exact ⟨rfl, rfl, rfl⟩
  · intro h1 h2
    have hfe : file_exists ops st (activePath sn tn) = some true := by
      unfold file_exists
      rw [if_neg (by simp [h1]), h2]
    unfold upload_save upload_try
    rw [hfe]
    dsimp only
    cases hu : upload_file ops
        (rename_file ops st (activePath sn tn) (backupPath sn tn ts)).1 c
        (activePath sn tn) with
    | none => simp
    | some st2 => simp
  · unfold upload_save
    dsimp only
    exact List.mem_append_right _ (by simp)

/-- Witness for C2 (amended): a failing existence check halts steps 2–3
while step 4 still runs. -/
theorem C2_witness :
    (upload_save failListOps false stEx ("PUBLIC") ("T") ("20250101_000000")
      dfNewEx).steps = [SaveStep.checkExists, SaveStep.refreshTable] ∧
    SaveStep.refreshTable ∈ (upload_save failListOps false stEx ("PUBLIC") ("T")
      ("20250101_000000") dfNewEx).steps :=
  ⟨((C2_save_error_handling failListOps false stEx ("PUBLIC") ("T")
      ("20250101_000000") dfNewEx).1 (by decide)).1,
   (C2_save_error_handling failListOps false stEx ("PUBLIC") ("T")
      ("20250101_000000") dfNewEx).2.2.1⟩

/-- Claim C10: `rename_file` catches every exception internally, so the
upload workflow never observes its failure: when the archive `PUT` raises,
the save still reports success, the new content overwrites the active file,
and no archive copy exists — the old content is lost. -/
theorem C10_rename_swallows_failure (ops : S3Ops) (rf : Bool) (st : S3State)
    (sn tn ts : String) (c d : DataFrame)
    (hex : st.lookup (activePath sn tn) = some d)
    (hl : ops.listFails (activePath sn tn) = false)
    (hg : ops.getFails (activePath sn tn) = false)
    (hbp : ops.putFails (backupPath sn tn ts) = true)
    (hfp : ops.putFails (activePath sn tn) = false)
    (hnone : st.lookup (backupPath sn tn ts) = none) :
    (rename_file ops st (activePath sn tn) (backupPath sn tn ts)).2 = true ∧
    (rename_file ops st (activePath sn tn) (backupPath sn tn ts)).1 = st ∧
    (upload_save ops rf st sn tn ts c).uploadFailedShown = false ∧
    (upload_save ops rf st sn tn ts c).uploadedOk = true ∧
    (upload_save ops rf st sn tn ts c).store.lookup (activePath sn tn) = some c ∧
    (upload_save ops rf st sn tn ts c).store.lookup (backupPath sn tn ts) = none := by
  have hcsv : hasCsvExt (backupPath sn tn ts) = true := by
    unfold backupPath
    exact hasCsvExt_append _
  have hren : rename_file ops st (activePath sn tn) (backupPath sn tn ts) = (st, true) := by
    unfold rename_file
    rw [get_file_eq_some ops st _ d hl hg hex]
    dsimp only
    rw [if_pos hcsv, if_pos hbp]
  have hfe : file_exists ops st (activePath sn tn) = some true := by
    unfold file_exists
    rw [if_neg (by simp [hl]), hex]
    rfl
  have hup : upload_file ops st c (activePath sn tn) =
      some (st.insert (activePath sn tn) c) := by
    unfold upload_file
    rw [if_neg (by simp [hfp])]
  have ht : upload_try ops st (activePath sn tn) (backupPath sn tn ts) c =
      { store := st.insert (activePath sn tn) c,
        steps := [SaveStep.checkExists, SaveStep.archiveRename, SaveStep.uploadNew],
        renameErrorShown := true, uploadFailedShown := false, uploadedOk := true } := by
    unfold upload_try
    rw [hfe]
    dsimp only
    rw [hren]
    dsimp only
    rw [hup]
  refine ⟨by rw [hren], by rw [hren], ?_, ?_, ?_, ?_⟩ <;>
    simp only [upload_save, ht]
  · exact S3State.lookup_insert_self st (activePath sn tn) c
  · rw [S3State.lookup_insert_ne st (activePath sn tn) (backupPath sn tn ts) c
      (backupPath_ne_activePath sn tn ts)]
    exact hnone

/-- Witness for C10: a failing archive `PUT` leaves no archive copy while
the upload succeeds and overwrites the active file. -/
theorem C10_witness :
    (upload_save failBackupOps false stEx ("PUBLIC") ("T") ("20250101_000000")
      dfNewEx).uploadedOk = true ∧
    (upload_save failBackupOps false stEx ("PUBLIC") ("T") ("20250101_000000")
      dfNewEx).store.lookup ("public/t/t.csv") = some dfNewEx ∧
    (upload_save failBackupOps false stEx ("PUBLIC") ("T") ("20250101_000000")
      dfNewEx).store.lookup ("public/t/archive/t_20250101_000000.csv") = none := by
  have h := C10_rename_swallows_failure failBackupOps false stEx ("PUBLIC") ("T")
    ("20250101_000000") dfNewEx dfOldEx (by decide) (by decide) (by decide)
    (by decide) (by decide) (by decide)
  exact ⟨h.2.2.2.1,
    by rw [show ("public/t/t.csv" : String) = activePath ("PUBLIC") ("T") from by decide]
       exact h.2.2.2.2.1,
    by rw [show ("public/t/archive/t_20250101_000000.csv" : String) =
        backupPath ("PUBLIC") ("T") ("20250101_000000") from by decide]
       exact h.2.2.2.2.2⟩
